import Mathlib

/-!
Verification of the Mullvad device-manager daemon (`src/main.py`, class
`MullvadManager`) against its natural-language specification.

The program is a single-threaded Python script.  Its pure logic — string
parsing of CLI output, whitelist loading, the classification of devices by
`cleanup_devices`, and the control flow of the monitoring loop and of
`main` — is embedded shallowly below.  External effects (running the
`mullvad` binary, reading files, sleeping, logging) are made explicit
parameters: each external invocation's outcome is an input of the embedded
function, and the list of command invocations issued is part of the output
where a claim is about invocations.

Python string primitives used by the source (`str.strip`, `str.splitlines`,
`str.replace`) are embedded as structural recursions over the character
list of a `String`, so that every definition evaluates by `decide`.

One behaviour of the Python standard library is load-bearing:
`subprocess.run` raises `ValueError` before spawning any process when
`capture_output` is combined with an explicit `stdout`/`stderr`, and
`_run_command` leaves `capture_output` at `True` while `suppress_output`
sets both redirections — so its two `suppress_output=True` call sites
(logout and login) raise unconditionally, which the embedding of
`run_command` and `login_with_token` makes explicit.
-/

/-- Python `str.strip()` (no argument): remove leading and trailing
whitespace characters.  The source only ever strips ASCII whitespace. -/
def pyStrip (s : String) : String :=
  ⟨List.reverse (List.dropWhile Char.isWhitespace
    (List.reverse (List.dropWhile Char.isWhitespace s.data)))⟩

/-- Split a character list at every newline character; the result always has
one more element than the number of newlines. -/
def splitNlList : List Char → List (List Char)
  | [] => [[]]
  | c :: rest =>
    match splitNlList rest with
    | [] => [[c]]
    | line :: lines => if c = '\n' then [] :: line :: lines else (c :: line) :: lines

/-- Python `str.splitlines()` restricted to the newline separator: the empty
string gives no lines, and a terminating newline does not open a final empty
line.  Every call site in the source strips the string first, so only the
newline separator is exercised. -/
def pySplitlines (s : String) : List String :=
  match s.data with
  | [] => []
  | l =>
    let parts := splitNlList l
    (if l.getLast? = some '\n' then parts.dropLast else parts).map (fun cs => ⟨cs⟩)

/-- Fuelled worker for `pyReplace`: replace non-overlapping occurrences of
`pat` left to right.  Fuel bounds the recursion; one unit is spent per
position, so fuel equal to the list length never runs out. -/
def replaceAllAux (pat rep : List Char) : Nat → List Char → List Char
  | 0, l => l
  | _, [] => []
  | fuel + 1, c :: rest =>
    if pat ≠ [] ∧ pat.isPrefixOf (c :: rest) then
      rep ++ replaceAllAux pat rep fuel ((c :: rest).drop pat.length)
    else c :: replaceAllAux pat rep fuel rest

/-- Python `str.replace(pat, rep)`: every non-overlapping occurrence of
`pat`, scanned left to right, is replaced by `rep`. -/
def pyReplace (s pat rep : String) : String :=
  ⟨replaceAllAux pat.data rep.data s.data.length s.data⟩

/-- Outcome class of `_run_command`: the two exception types it re-raises
after logging.  `calledProcessError` is a non-zero exit of the external
binary, `fileNotFoundError` a missing binary. -/
inductive CmdError
  | calledProcessError
  | fileNotFoundError
deriving DecidableEq, Repr

/-- Exception class relevant to the loop and to `main`: Python's
`KeyboardInterrupt` derives from `BaseException` but not from `Exception`,
so the two are distinguished everywhere an `except Exception` clause runs. -/
inductive PyExn
  | keyboardInterrupt
  | exn
deriving DecidableEq, Repr

/-- `_get_account_info`: run the status query and split its stripped output
into lines.  A `CalledProcessError` is swallowed (returns `none`); a
`FileNotFoundError` is not caught there and propagates. -/
def get_account_info (raw : Except CmdError String) :
    Except CmdError (Option (List String)) :=
  match raw with
  | Except.ok out => Except.ok (some (pySplitlines (pyStrip out)))
  | Except.error CmdError.calledProcessError => Except.ok none
  | Except.error CmdError.fileNotFoundError =>
      Except.error CmdError.fileNotFoundError

/-- The string `lines[2].replace("Device name:", "").strip()` of
`get_local_device_name`. -/
def extract_device_name (line : String) : String :=
  pyStrip (pyReplace line "Device name:" "")

/-- One attempt of `get_local_device_name`, after the account info has been
obtained: `some name` when the name is extracted, `none` when the source
instead re-authenticates and retries (`not lines or len(lines) != 3`). -/
def resolve_step (acct : Option (List String)) : Option String :=
  match acct with
  | none => none
  | some lines =>
    if lines = [] ∨ lines.length ≠ 3 then none
    else some (extract_device_name (lines.getD 2 ""))

/-- Exception leaving `_run_command`: a non-zero exit or a missing binary is
logged and re-raised, but `subprocess.run` itself raises `ValueError` before
any process is spawned when `capture_output` is combined with an explicit
`stdout`/`stderr`, and `_run_command` catches only `CalledProcessError` and
`FileNotFoundError`, so that `ValueError` propagates unlogged. -/
inductive RunError
  | calledProcessError
  | fileNotFoundError
  | valueError
deriving DecidableEq, Repr

/-- `_run_command` for a side-effecting call site: `capture_output` is the
keyword (default `True` in the source) and `suppress_output` additionally
puts `stdout = stderr = DEVNULL` into the kwargs.  `subprocess.run` rejects
the combination of `capture_output` with a redirected `stdout`/`stderr` by
raising `ValueError` before spawning; otherwise the external command runs
and its failure, if any, is re-raised.  The first component records whether
the external command was actually spawned. -/
def run_command (capture_output suppress_output : Bool)
    (external : Except CmdError Unit) : Bool × Option RunError :=
  if capture_output && suppress_output then (false, some RunError.valueError)
  else
    match external with
    | Except.ok _ => (true, none)
    | Except.error CmdError.calledProcessError =>
        (true, some RunError.calledProcessError)
    | Except.error CmdError.fileNotFoundError =>
        (true, some RunError.fileNotFoundError)

/-- Exception raised by `_login_with_token`: token file missing (Python
`FileNotFoundError`), token blank (`ValueError`), or an error out of one of
its three `_run_command` calls. -/
inductive AuthError
  | missingToken
  | emptyToken
  | runError (e : RunError)
deriving DecidableEq, Repr

/-- `_login_with_token`: check the token file, then run logout and login
with `suppress_output=True` (leaving `capture_output` at its default
`True`), then connect with `capture_output=False`.  The first component
lists the external commands actually spawned, in order; the second the
exception raised, if any.  The logout and login steps combine
`capture_output` with `suppress_output`, so the logout step raises
`ValueError` before spawning whenever the token checks pass; the later
steps are kept as written in the source. -/
def login_with_token (tokenFileExists : Bool) (tokenRaw : String)
    (logoutRes loginRes connectRes : Except CmdError Unit) :
    List String × Option AuthError :=
  if tokenFileExists = false then ([], some AuthError.missingToken)
  else if pyStrip tokenRaw = "" then ([], some AuthError.emptyToken)
  else
    let logout := run_command true true logoutRes
    let inv0 := if logout.1 then ["logout"] else []
    match logout.2 with
    | some e => (inv0, some (AuthError.runError e))
    | none =>
      let login := run_command true true loginRes
      let inv1 := inv0 ++ (if login.1 then ["login"] else [])
      match login.2 with
      | some e => (inv1, some (AuthError.runError e))
      | none =>
        let connect := run_command false false connectRes
        let inv2 := inv1 ++ (if connect.1 then ["connect"] else [])
        match connect.2 with
        | some e => (inv2, some (AuthError.runError e))
        | none => (inv2, none)

/-- The re-authentication environment of a `get_local_device_name`
activation: the token file's state and the external outcomes the three
re-authentication commands would have if spawned. -/
structure AuthEnv where
  tokenFileExists : Bool
  tokenRaw : String
  logoutRes : Except CmdError Unit
  loginRes : Except CmdError Unit
  connectRes : Except CmdError Unit

/-- How a `get_local_device_name` activation ends: a name returned, an
exception raised by the re-authentication attempt, a `FileNotFoundError`
raised by the status query itself, or the observation window ending while
the recursion is still running. -/
inductive ResolveResult
  | extracted (name : String)
  | raised (e : AuthError)
  | queryRaised (e : CmdError)
  | window
deriving DecidableEq, Repr

/-- `get_local_device_name`, observed along a finite list of successive
raw status-query outcomes: obtain the account info, extract on a three-line
output, otherwise call `_login_with_token` and — should that return — retry
on the next outcome, exactly as written at line 90 of the source.  That
retry branch is provably unreachable, because `_login_with_token` always
raises (`login_with_token_always_raises` below). -/
def get_local_device_name (env : AuthEnv) :
    List (Except CmdError String) → ResolveResult
  | [] => ResolveResult.window
  | q :: rest =>
    match get_account_info q with
    | Except.error e => ResolveResult.queryRaised e
    | Except.ok acct =>
      match resolve_step acct with
      | some name => ResolveResult.extracted name
      | none =>
        match (login_with_token env.tokenFileExists env.tokenRaw
            env.logoutRes env.loginRes env.connectRes).2 with
        | some e => ResolveResult.raised e
        | none => get_local_device_name env rest

/-- The per-entry body of `get_whitelist`:
`[device.strip() for device in whitelist if device.strip()]`. -/
def strip_nonblank : List String → List String
  | [] => []
  | device :: rest =>
    if pyStrip device = "" then strip_nonblank rest
    else pyStrip device :: strip_nonblank rest

/-- `get_whitelist`: a missing whitelist file yields the empty list; an
existing one is stripped, split into lines, and each line stripped with
blank entries dropped. -/
def get_whitelist (fileExists : Bool) (content : String) : List String :=
  if fileExists then strip_nonblank (pySplitlines (pyStrip content)) else []

/-- The line loop of `get_account_devices`: strip each line, keep it when it
is non-blank and differs from the header `"Devices on the account:"`. -/
def parse_device_lines : List String → List String
  | [] => []
  | line :: rest =>
    if pyStrip line ≠ "" ∧ pyStrip line ≠ "Devices on the account:" then
      pyStrip line :: parse_device_lines rest
    else parse_device_lines rest

/-- `get_account_devices`: split the stripped stdout of the device-listing
command into lines and run the line loop. -/
def get_account_devices (stdout : String) : List String :=
  parse_device_lines (pySplitlines (pyStrip stdout))

/-- `cleanup_devices`, with the whitelist and the parsed device list as
explicit inputs (the source loads both inside the function).  The first
component is the list of revoke invocations issued by `remove_device`, in
iteration order; the second is `local_device_found`.  Revoke commands are
taken to succeed: a failing revoke raises out of the pass, which the
monitoring-loop model covers as `LoopEvent.raised`. -/
def cleanup_devices (whitelist devices : List String) (local_device : String) :
    List String × Bool :=
  match devices with
  | [] => ([], false)
  | device :: rest =>
    let r := cleanup_devices whitelist rest local_device
    if device = local_device then (r.1, true)
    else if device ∈ whitelist then r
    else (device :: r.1, r.2)

/-- What one iteration of `run_monitoring_loop`'s body observed:
the pass ran and found the local device; the pass ran, found it missing, and
the in-loop `get_local_device_name` call then returned a name or raised; or
the pass itself raised. -/
inductive LoopEvent
  | passOk
  | localLost (resolver : Except PyExn String)
  | raised (e : PyExn)
deriving Repr

/-- Where one iteration leaves the loop: continue with a (possibly updated)
local device after sleeping the given number of seconds, or leave the loop
(`break`). -/
inductive LoopStep
  | next (local_device : String) (sleepSeconds : Nat)
  | stopped
deriving Repr

/-- One iteration of the `while True` body of `run_monitoring_loop`:
local still present sleeps `check_interval`; local lost re-resolves and
continues at once with the new name; `KeyboardInterrupt` breaks; any other
exception is caught, sleeps 10 seconds, and keeps the old identity. -/
def loop_iteration (local_device : String) (check_interval : Nat) :
    LoopEvent → LoopStep
  | LoopEvent.passOk => LoopStep.next local_device check_interval
  | LoopEvent.localLost (Except.ok name) => LoopStep.next name 0
  | LoopEvent.localLost (Except.error PyExn.keyboardInterrupt) => LoopStep.stopped
  | LoopEvent.localLost (Except.error PyExn.exn) =>
      LoopStep.next local_device 10
  | LoopEvent.raised PyExn.keyboardInterrupt => LoopStep.stopped
  | LoopEvent.raised PyExn.exn => LoopStep.next local_device 10

/-- Whether an iteration's observation is a user-initiated interrupt caught
by the loop's `except KeyboardInterrupt` clause. -/
def isStopEvent : LoopEvent → Bool
  | LoopEvent.raised PyExn.keyboardInterrupt => true
  | LoopEvent.localLost (Except.error PyExn.keyboardInterrupt) => true
  | _ => false

/-- `run_monitoring_loop` after a successful startup resolution, observed
along a finite list of iteration events: `true` when the loop `break`s
within the window (the function returns), `false` when the window ends with
the loop still monitoring. -/
def run_loop_events (local_device : String) (check_interval : Nat) :
    List LoopEvent → Bool
  | [] => false
  | ev :: rest =>
    match loop_iteration local_device check_interval ev with
    | LoopStep.stopped => true
    | LoopStep.next l _ => run_loop_events l check_interval rest

/-- How a run of `main` ends within the observation window. -/
inductive MainOutcome
  | exit0
  | exit1
  | uncaughtInterrupt
  | running
deriving DecidableEq, Repr

/-- The exception class of a failed startup resolution: `MissingTokenError`
is Python's `FileNotFoundError` and `EmptyTokenError` its `ValueError`, both
subclasses of `Exception`, as are the errors out of `_run_command` — the
re-raised `CalledProcessError`/`FileNotFoundError` and the `ValueError`
from `subprocess.run`'s kwargs check. -/
def startup_failure_of_auth (_e : AuthError) : PyExn := PyExn.exn

/-- `main` composed with `run_monitoring_loop`.  `startup` is the outcome of
the initial `get_local_device_name()` call, which sits before the loop's
`try`: an `Exception` from it is caught by `main`'s `except Exception` and
gives exit status 1, while a `KeyboardInterrupt` from it matches neither the
loop's handlers (never entered) nor `except Exception`, so it escapes `main`
entirely (CPython then terminates with status 130).  A normal return of the
loop gives exit status 0. -/
def main_run (startup : Except PyExn String) (check_interval : Nat)
    (events : List LoopEvent) : MainOutcome :=
  match startup with
  | Except.error PyExn.exn => MainOutcome.exit1
  | Except.error PyExn.keyboardInterrupt => MainOutcome.uncaughtInterrupt
  | Except.ok local_device =>
    if run_loop_events local_device check_interval events then MainOutcome.exit0
    else MainOutcome.running

/-- Modelled from the spec: extraction of the device name "by removing the
fixed label prefix `Device name:` and trimming whitespace" — the label is
removed only where it stands as a leading prefix of the line.  Stated for
comparison with `extract_device_name`, which embeds the source's
`str.replace`. -/
def strip_label_spec (line : String) : String :=
  if ("Device name:".data).isPrefixOf line.data then
    pyStrip ⟨line.data.drop ("Device name:".data).length⟩
  else pyStrip line

example : pyStrip "  A \n\nB\n" = "A \n\nB" := by decide
example : get_whitelist true "  A \n\nB\n" = ["A", "B"] := by decide
example : parse_device_lines ["Devices on the account:", "dev-a", "", "dev-b"]
    = ["dev-a", "dev-b"] := by decide
example : resolve_step (some ["X", "Y", "Device name: foo-bar-1"])
    = some "foo-bar-1" := by decide
example : cleanup_devices ["phone-1"] ["laptop-9", "phone-1", "tablet-7"] "laptop-9"
    = (["tablet-7"], true) := by decide

theorem cleanup_devices_fst (W : List String) (L : String) (D : List String) :
    (cleanup_devices W D L).1 = D.filter (fun d => decide (d ≠ L ∧ d ∉ W)) := by
  induction D with
  | nil => rfl
  | cons d rest ih =>
    by_cases h1 : d = L
    · simp [cleanup_devices, h1, ih]
    · by_cases h2 : d ∈ W
      · simp [cleanup_devices, h1, h2, ih]
      · simp [cleanup_devices, h1, h2, ih]

theorem cleanup_devices_snd (W : List String) (L : String) (D : List String) :
    ((cleanup_devices W D L).2 = true) ↔ L ∈ D := by
  induction D with
  | nil => simp [cleanup_devices]
  | cons d rest ih =>
    by_cases h1 : d = L
    · simp [cleanup_devices, h1]
    · by_cases h2 : d ∈ W
      · simp [cleanup_devices, h1, h2, ih, Ne.symm h1]
      · simp [cleanup_devices, h1, h2, ih, Ne.symm h1]

theorem strip_nonblank_eq (l : List String) :
    strip_nonblank l = (l.map pyStrip).filter (fun d => decide (d ≠ "")) := by
  induction l with
  | nil => rfl
  | cons x xs ih =>
    by_cases h : pyStrip x = ""
    · simp [strip_nonblank, h, ih, List.filter_cons]
    · simp [strip_nonblank, h, ih, List.filter_cons]

theorem parse_device_lines_eq (l : List String) :
    parse_device_lines l = (l.map pyStrip).filter
      (fun x => decide (x ≠ "" ∧ x ≠ "Devices on the account:")) := by
  induction l with
  | nil => rfl
  | cons x xs ih =>
    by_cases h : pyStrip x ≠ "" ∧ pyStrip x ≠ "Devices on the account:"
    · simp [parse_device_lines, if_pos h, ih, List.filter_cons, h]
    · simp [parse_device_lines, if_neg h, ih, List.filter_cons, h]

theorem loop_iteration_stopped_iff (L : String) (n : Nat) (ev : LoopEvent) :
    loop_iteration L n ev = LoopStep.stopped ↔ isStopEvent ev = true := by
  cases ev with
  | passOk => simp [loop_iteration, isStopEvent]
  | localLost r =>
    cases r with
    | ok name => simp [loop_iteration, isStopEvent]
    | error e => cases e <;> simp [loop_iteration, isStopEvent]
  | raised e => cases e <;> simp [loop_iteration, isStopEvent]

theorem run_loop_events_eq_any (n : Nat) (evs : List LoopEvent) :
    ∀ L : String, run_loop_events L n evs = evs.any isStopEvent := by
  induction evs with
  | nil => intro L; rfl
  | cons ev rest ih =>
    intro L
    cases ev with
    | passOk => simp [run_loop_events, loop_iteration, isStopEvent, ih]
    | localLost r =>
      cases r with
      | ok name => simp [run_loop_events, loop_iteration, isStopEvent, ih]
      | error e => cases e <;> simp [run_loop_events, loop_iteration, isStopEvent, ih]
    | raised e => cases e <;> simp [run_loop_events, loop_iteration, isStopEvent, ih]

theorem login_with_token_always_raises (tfe : Bool) (tok : String)
    (lo li co : Except CmdError Unit) :
    (login_with_token tfe tok lo li co).2 ≠ none := by
  cases tfe with
  | false => simp [login_with_token]
  | true =>
    by_cases h : pyStrip tok = ""
    · simp [login_with_token, h]
    · simp [login_with_token, run_command, h]

theorem login_with_token_value_error (tok : String)
    (lo li co : Except CmdError Unit) (h : pyStrip tok ≠ "") :
    login_with_token true tok lo li co
      = ([], some (AuthError.runError RunError.valueError)) := by
  simp [login_with_token, run_command, h]

theorem get_local_device_name_first_attempt (env : AuthEnv)
    (q : Except CmdError String) (rest rest2 : List (Except CmdError String)) :
    get_local_device_name env (q :: rest)
      = get_local_device_name env (q :: rest2) := by
  cases hq : get_account_info q with
  | error e => simp [get_local_device_name, hq]
  | ok acct =>
    cases hr : resolve_step acct with
    | some name => simp [get_local_device_name, hq, hr]
    | none =>
      cases hl : (login_with_token env.tokenFileExists env.tokenRaw
          env.logoutRes env.loginRes env.connectRes).2 with
      | some e => simp [get_local_device_name, hq, hr, hl]
      | none =>
        exact absurd hl (login_with_token_always_raises env.tokenFileExists
          env.tokenRaw env.logoutRes env.loginRes env.connectRes)

/-- C1 (as amended): one `cleanup_devices` pass issues a revoke invocation
for a device exactly when it occurs in the account device list `D`, differs
from the local device `L`, and is not a member of the whitelist `W` (exact,
case-sensitive string equality); the revoke list is precisely the
subsequence of `D` of such occurrences, in order — one invocation per
occurrence, hence exactly one per device when `D` has no duplicate names —
and the pass returns `true` exactly when `L` was observed in `D` (when `L`
is absent it still revokes the non-whitelisted devices and returns
`false`). -/
theorem cleanup_devices_spec (W D : List String) (L : String) :
    (cleanup_devices W D L).1 = D.filter (fun d => decide (d ≠ L ∧ d ∉ W)) ∧
    (∀ d : String, d ∈ (cleanup_devices W D L).1 ↔ d ∈ D ∧ d ≠ L ∧ d ∉ W) ∧
    ((cleanup_devices W D L).2 = true ↔ L ∈ D) := by
  refine ⟨cleanup_devices_fst W L D, ?_, cleanup_devices_snd W L D⟩
  intro d
  rw [cleanup_devices_fst, List.mem_filter]
  simp

/-- C1, counterexample to the claim as stated: with an empty whitelist,
account device list `["a", "a"]` and local device `"x"`, the device `"a"`
satisfies the revocation condition yet receives two revoke invocations in
the single pass, not exactly one. -/
theorem cleanup_devices_duplicate_cex :
    ("a" ∈ ["a", "a"] ∧ "a" ≠ "x" ∧ "a" ∉ ([] : List String)) ∧
    List.count "a" (cleanup_devices [] ["a", "a"] "x").1 = 2 := by decide

/-- C8: reconciliation is idempotent — if a second `cleanup_devices` pass
runs with the whitelist unchanged and the device list replaced by the
devices remaining after the first pass's revocations, the second pass
issues zero revoke invocations. -/
theorem cleanup_devices_idempotent (W D : List String) (L : String) :
    (cleanup_devices W
        (D.filter (fun d => decide (d ∉ (cleanup_devices W D L).1))) L).1
      = [] := by
  rw [cleanup_devices_fst, List.filter_eq_nil_iff]
  intro a ha
  rw [List.mem_filter] at ha
  obtain ⟨haD, hnotrev⟩ := ha
  rw [decide_eq_true_eq] at hnotrev
  rw [decide_eq_true_eq]
  intro hp
  exact hnotrev (by
    rw [cleanup_devices_fst, List.mem_filter]
    exact ⟨haD, by rw [decide_eq_true_eq]; exact hp⟩)

/-- C2 (as amended): on a three-line account-status output the name is
extracted from the third line by removing every occurrence of the substring
`Device name:` (Python `str.replace`) and trimming whitespace — which
coincides with removal of the leading label on lines such as
`Device name: foo-bar-1`, yielding `foo-bar-1` — while every output whose
line count differs from three sends `get_local_device_name` into the
re-authentication branch instead of extraction; that re-authentication
attempt invariably raises (`ValueError` from the suppressed-output logout
call when the token checks pass), so the retry after it is unreachable and
the activation's outcome is decided by the first status output alone. -/
theorem get_local_device_name_spec (lines : List String) (tok : String)
    (lo li co : Except CmdError Unit) (rest : List (Except CmdError String))
    (h : lines.length ≠ 3) (h2 : pyStrip tok ≠ "") :
    get_local_device_name ⟨true, tok, lo, li, co⟩
        (Except.ok "X\nY\nDevice name: foo-bar-1" :: rest)
      = ResolveResult.extracted "foo-bar-1" ∧
    extract_device_name "Device name: foo-bar-1"
      = strip_label_spec "Device name: foo-bar-1" ∧
    resolve_step (some lines) = none ∧
    get_local_device_name ⟨true, tok, lo, li, co⟩ (Except.ok "X\nY" :: rest)
      = ResolveResult.raised (AuthError.runError RunError.valueError) ∧
    (∀ q : Except CmdError String, ∀ rest2 : List (Except CmdError String),
      get_local_device_name ⟨true, tok, lo, li, co⟩ (q :: rest)
        = get_local_device_name ⟨true, tok, lo, li, co⟩ (q :: rest2)) := by
  have h3 : resolve_step (some lines) = none := by
    simp [resolve_step, h]
  have hlogin : login_with_token true tok lo li co
      = ([], some (AuthError.runError RunError.valueError)) :=
    login_with_token_value_error tok lo li co h2
  refine ⟨?_, by decide, h3, ?_, ?_⟩
  · have hres : resolve_step (some ["X", "Y", "Device name: foo-bar-1"])
        = some "foo-bar-1" := by decide
    have hsplit : pySplitlines (pyStrip "X\nY\nDevice name: foo-bar-1")
        = ["X", "Y", "Device name: foo-bar-1"] := by decide
    simp [get_local_device_name, get_account_info, hsplit, hres]
  · have hres2 : resolve_step (some ["X", "Y"]) = none := by decide
    have hsplit2 : pySplitlines (pyStrip "X\nY") = ["X", "Y"] := by decide
    simp [get_local_device_name, get_account_info, hsplit2, hres2, hlogin]
  · intro q rest2
    exact get_local_device_name_first_attempt ⟨true, tok, lo, li, co⟩ q rest rest2

/-- C2, witness: the two-line output of the claim's own example, a token
`secret123`, external outcomes all successful, and no further query
outcomes. -/
theorem get_local_device_name_spec_witness :
    ((["X", "Y"] : List String).length ≠ 3 ∧ pyStrip "secret123" ≠ "") ∧
    (get_local_device_name ⟨true, "secret123", Except.ok (), Except.ok (), Except.ok ()⟩
        [Except.ok "X\nY\nDevice name: foo-bar-1"]
      = ResolveResult.extracted "foo-bar-1" ∧
     extract_device_name "Device name: foo-bar-1"
        = strip_label_spec "Device name: foo-bar-1" ∧
     resolve_step (some ["X", "Y"]) = none ∧
     get_local_device_name ⟨true, "secret123", Except.ok (), Except.ok (), Except.ok ()⟩
        [Except.ok "X\nY"]
      = ResolveResult.raised (AuthError.runError RunError.valueError) ∧
     (∀ q : Except CmdError String, ∀ rest2 : List (Except CmdError String),
       get_local_device_name ⟨true, "secret123", Except.ok (), Except.ok (), Except.ok ()⟩ (q :: [])
        = get_local_device_name ⟨true, "secret123", Except.ok (), Except.ok (), Except.ok ()⟩ (q :: rest2))) :=
  ⟨⟨by decide, by decide⟩, get_local_device_name_spec ["X", "Y"] "secret123"
    (Except.ok ()) (Except.ok ()) (Except.ok ()) [] (by decide) (by decide)⟩

/-- C2, counterexample to the claim as stated: on the three-line output
whose third line is `a Device name: b`, the source extracts `a  b`
(`str.replace` removes the label in the middle of the line), whereas
removing the fixed label prefix and trimming whitespace would leave the
line unchanged; and a two-line output followed by a well-formed three-line
output does not lead to a retried extraction — the re-authentication
attempt raises `ValueError` to the caller instead. -/
theorem extract_device_name_cex :
    resolve_step (some ["X", "Y", "a Device name: b"]) = some "a  b" ∧
    strip_label_spec "a Device name: b" = "a Device name: b" ∧
    ("a  b" : String) ≠ "a Device name: b" ∧
    get_local_device_name ⟨true, "secret123", Except.ok (), Except.ok (), Except.ok ()⟩
        [Except.ok "X\nY", Except.ok "X\nY\nDevice name: foo-bar-1"]
      = ResolveResult.raised (AuthError.runError RunError.valueError) := by decide

/-- C3 (as amended): during every re-authentication attempt that passes the
token checks, the logout step raises `ValueError` inside `subprocess.run`
(the kwargs combine `capture_output`, left at its default `True`, with the
`DEVNULL` redirection of `suppress_output`) before the logout command is
spawned; `_run_command` catches only `CalledProcessError` and
`FileNotFoundError`, so the error propagates unlogged out of
`_login_with_token` — a failure of the logout command can never occur, let
alone be ignored, and the login, reconnect, and status-query retry of the
attempt do not proceed. -/
theorem logout_failure_aborts (token : String)
    (logoutRes loginRes connectRes : Except CmdError Unit)
    (h : pyStrip token ≠ "") :
    run_command true true logoutRes = (false, some RunError.valueError) ∧
    login_with_token true token logoutRes loginRes connectRes
      = ([], some (AuthError.runError RunError.valueError)) ∧
    "logout" ∉ (login_with_token true token logoutRes loginRes connectRes).1 ∧
    "login" ∉ (login_with_token true token logoutRes loginRes connectRes).1 ∧
    "connect" ∉ (login_with_token true token logoutRes loginRes connectRes).1 := by
  have h1 : login_with_token true token logoutRes loginRes connectRes
      = ([], some (AuthError.runError RunError.valueError)) :=
    login_with_token_value_error token logoutRes loginRes connectRes h
  refine ⟨rfl, h1, ?_, ?_, ?_⟩
  · rw [h1]; simp
  · rw [h1]; simp
  · rw [h1]; simp

/-- C3, witness: a concrete attempt with token `secret123` in the
environment the original claim contemplates — a logout command that would
exit non-zero if it were ever spawned. -/
theorem logout_failure_aborts_witness :
    pyStrip "secret123" ≠ "" ∧
    (run_command true true (Except.error CmdError.calledProcessError)
      = (false, some RunError.valueError) ∧
     login_with_token true "secret123"
        (Except.error CmdError.calledProcessError) (Except.ok ()) (Except.ok ())
      = ([], some (AuthError.runError RunError.valueError)) ∧
     "logout" ∉ (login_with_token true "secret123"
        (Except.error CmdError.calledProcessError) (Except.ok ()) (Except.ok ())).1 ∧
     "login" ∉ (login_with_token true "secret123"
        (Except.error CmdError.calledProcessError) (Except.ok ()) (Except.ok ())).1 ∧
     "connect" ∉ (login_with_token true "secret123"
        (Except.error CmdError.calledProcessError) (Except.ok ()) (Except.ok ())).1) :=
  ⟨by decide, logout_failure_aborts "secret123"
    (Except.error CmdError.calledProcessError) (Except.ok ()) (Except.ok ())
    (by decide)⟩

/-- C3, counterexample to the claim as stated: with token `secret123`, in an
environment where the logout command would exit non-zero if spawned, the
re-authentication attempt raises `ValueError` before the logout command is
even spawned — so no logout failure occurs or is ignored — and the login
(and reconnect) invocations never proceed. -/
theorem logout_failure_cex :
    login_with_token true "secret123"
        (Except.error CmdError.calledProcessError) (Except.ok ()) (Except.ok ())
      = ([], some (AuthError.runError RunError.valueError)) ∧
    "logout" ∉ (login_with_token true "secret123"
        (Except.error CmdError.calledProcessError) (Except.ok ()) (Except.ok ())).1 ∧
    "login" ∉ (login_with_token true "secret123"
        (Except.error CmdError.calledProcessError) (Except.ok ()) (Except.ok ())).1 := by
  decide

/-- C4: an unexpected exception raised inside the monitoring-loop body —
whether from the reconciliation pass or from the in-loop re-resolution — is
caught; the loop sleeps the fixed 10-second backoff and continues with the
same unchanged local identity, and the only observations that make the loop
terminate are user-initiated interrupts, never a failed pass. -/
theorem monitoring_loop_survives_errors (L : String) (n : Nat) :
    loop_iteration L n (LoopEvent.raised PyExn.exn) = LoopStep.next L 10 ∧
    loop_iteration L n (LoopEvent.localLost (Except.error PyExn.exn))
      = LoopStep.next L 10 ∧
    (∀ ev : LoopEvent,
      loop_iteration L n ev = LoopStep.stopped ↔ isStopEvent ev = true) :=
  ⟨rfl, rfl, fun ev => loop_iteration_stopped_iff L n ev⟩

/-- C5 (as amended): the process exits with status 0 exactly when a
user-initiated interrupt arrives inside the monitoring-loop body; an
`Exception`-derived fatal error reaching the top level — in particular a
missing or empty token file during re-authentication at startup — gives
exit status 1; but a user interrupt during the initial identity resolution
at startup matches no handler (`KeyboardInterrupt` is not a Python
`Exception`) and terminates the process as an unhandled exception, with
neither status 0 nor status 1. -/
theorem main_exit_code_spec (L : String) (n : Nat) (evs : List LoopEvent) :
    (main_run (Except.ok L) n evs = MainOutcome.exit0
      ↔ evs.any isStopEvent = true) ∧
    main_run (Except.error PyExn.exn) n evs = MainOutcome.exit1 ∧
    main_run (Except.error (startup_failure_of_auth AuthError.missingToken)) n evs
      = MainOutcome.exit1 ∧
    main_run (Except.error (startup_failure_of_auth AuthError.emptyToken)) n evs
      = MainOutcome.exit1 ∧
    main_run (Except.error PyExn.keyboardInterrupt) n evs
      = MainOutcome.uncaughtInterrupt := by
  refine ⟨?_, rfl, rfl, rfl, rfl⟩
  have hrl := run_loop_events_eq_any n evs L
  simp only [main_run, hrl]
  cases h : evs.any isStopEvent <;> simp

/-- C5, counterexample to the claim as stated: a run stopped by a
user-initiated interrupt during the initial identity resolution (before any
loop iteration) exits neither with status 0 nor with status 1. -/
theorem startup_interrupt_cex :
    main_run (Except.error PyExn.keyboardInterrupt) 60 [] ≠ MainOutcome.exit0 ∧
    main_run (Except.error PyExn.keyboardInterrupt) 60 [] ≠ MainOutcome.exit1 := by
  decide

/-- C6: `get_whitelist` parses an existing whitelist file as
newline-delimited entries, strips whitespace from each entry and drops the
blank ones — content `"  A \n\nB\n"` yields exactly `["A", "B"]` — and a
missing whitelist file yields the empty set rather than a failure. -/
theorem get_whitelist_spec (content other : String) :
    get_whitelist true content
      = ((pySplitlines (pyStrip content)).map pyStrip).filter
          (fun d => decide (d ≠ "")) ∧
    get_whitelist true "  A \n\nB\n" = ["A", "B"] ∧
    get_whitelist false other = [] :=
  ⟨strip_nonblank_eq (pySplitlines (pyStrip content)), by decide, rfl⟩

/-- C7: `get_account_devices` trims each line of the device-listing output
and discards the fixed header line `Devices on the account:` together with
all blank lines, returning the remaining device names in their original
order; the listing `["Devices on the account:", "dev-a", "", "dev-b"]`
yields `["dev-a", "dev-b"]`. -/
theorem get_account_devices_spec (lines : List String) :
    parse_device_lines lines
      = (lines.map pyStrip).filter
          (fun l => decide (l ≠ "" ∧ l ≠ "Devices on the account:")) ∧
    parse_device_lines ["Devices on the account:", "dev-a", "", "dev-b"]
      = ["dev-a", "dev-b"] ∧
    get_account_devices "Devices on the account:\ndev-a\n\ndev-b"
      = ["dev-a", "dev-b"] :=
  ⟨parse_device_lines_eq lines, by decide, by decide⟩

/-- C9 (as amended): a non-zero exit of the account-status query is
swallowed by `_get_account_info` (returned as `None`, never propagated as a
command error to the caller), and `get_local_device_name` handles that
`None` exactly like a malformed, non-three-line status output — the two
runs are indistinguishable from there on: both enter the re-authentication
branch instead of extracting a name, and what then reaches the caller in
both cases alike is the exception raised by the re-authentication attempt
itself (with a readable, non-blank token: the `ValueError` of the
suppressed-output logout step), not a command error, the retry after the
attempt being unreachable. -/
theorem account_query_failure_reauth (env : AuthEnv)
    (rest : List (Except CmdError String)) :
    get_account_info (Except.error CmdError.calledProcessError)
      = Except.ok none ∧
    resolve_step none = none ∧
    resolve_step none = resolve_step (some ["X", "Y"]) ∧
    get_local_device_name env (Except.error CmdError.calledProcessError :: rest)
      = get_local_device_name env (Except.ok "X\nY" :: rest) := by
  have hsplit2 : pySplitlines (pyStrip "X\nY") = ["X", "Y"] := by decide
  have hres2 : resolve_step (some ["X", "Y"]) = none := by decide
  refine ⟨rfl, rfl, by decide, ?_⟩
  simp [get_local_device_name, get_account_info, hsplit2, hres2, resolve_step]

/-- C9, counterexample to the claim as stated: with token `secret123` and a
status query exiting non-zero, followed by a well-formed three-line output,
no retry occurs — the `ValueError` raised by the re-authentication attempt
propagates to the caller instead of the device name the retry would have
extracted. -/
theorem account_query_failure_cex :
    get_local_device_name ⟨true, "secret123", Except.ok (), Except.ok (), Except.ok ()⟩
        [Except.error CmdError.calledProcessError,
         Except.ok "X\nY\nDevice name: foo-bar-1"]
      = ResolveResult.raised (AuthError.runError RunError.valueError) ∧
    ResolveResult.raised (AuthError.runError RunError.valueError)
      ≠ ResolveResult.extracted "foo-bar-1" := by decide

/-- C10: the line loop of `get_account_devices` drops every line equal
(after trimming) to the header string `Devices on the account:` wherever it
occurs, not only in first position; consequently a device carrying exactly
that name never reaches `cleanup_devices` — it is never revoked, and as
local device it is never found in the parsed listing. -/
theorem header_line_never_device (lines W : List String) (L : String) :
    "Devices on the account:" ∉ parse_device_lines lines ∧
    "Devices on the account:" ∉ (cleanup_devices W (parse_device_lines lines) L).1 ∧
    (cleanup_devices W (parse_device_lines lines) "Devices on the account:").2
      = false ∧
    parse_device_lines ["dev-a", "Devices on the account:", "dev-b"]
      = ["dev-a", "dev-b"] := by
  have h1 : "Devices on the account:" ∉ parse_device_lines lines := by
    rw [parse_device_lines_eq]
    intro hmem
    rw [List.mem_filter] at hmem
    simp at hmem
  refine ⟨h1, ?_, ?_, by decide⟩
  · intro hmem
    rw [cleanup_devices_fst, List.mem_filter] at hmem
    exact h1 hmem.1
  · cases hb : (cleanup_devices W (parse_device_lines lines)
        "Devices on the account:").2 with
    | false => rfl
    | true =>
      exact absurd ((cleanup_devices_snd W "Devices on the account:"
        (parse_device_lines lines)).mp hb) h1
